import Mathlib

/-!
Verification development for the pandapower exporter module
(`epowcore/pandapower/pandapower_model.py`).

The module is shallowly embedded: generic-data-format (gdf) components are
Lean structures, the pandapower network is a list of element records (one
record per `pandapower.create_*` call, with the call's keyword arguments as
fields), and each converter method of `PandapowerModel` is a Lean function
that takes the conversion session plus the externally supplied topology
lookup results and returns the updated session.  Python runtime errors
(IndexError from indexing an empty neighbor list, AttributeError from
reading an attribute that does not exist on a value) are made explicit with
an `Except` result.  Python floats are idealized as rational numbers, except
in the transmission-line converter whose capacitance formula involves pi and
is therefore stated over the reals; the float NaN sentinel used by the
source for "unconstrained" parameters is an explicit `PyFloat.nan`.
-/

/-- Target platform identifier (`epowcore.generic.constants.Platform`).
Modelled from the spec: an opaque per-session platform selector consumed by
the Default Policy Provider. -/
structure Platform where
  id : Nat
deriving DecidableEq

/-- Generic bus-type enumeration (`epowcore.gdf.bus.BusType`).
Modelled from the spec: the set {busbar, junction-node, internal-node}. -/
inductive BusType where
  | BUSBAR
  | JUNCTION
  | INTERNAL
deriving DecidableEq

/-- Load-flow bus classification (`epowcore.gdf.bus.LFBusType`); the
converter only ever compares against `SLACK`. -/
inductive LFBusType where
  | PQ
  | PV
  | SLACK
deriving DecidableEq

/-- Python float as used by the converters: either a number or the IEEE NaN
that the source passes as the "unconstrained / unknown" sentinel. -/
inductive PyFloat (α : Type) where
  | nan : PyFloat α
  | val (x : α) : PyFloat α

/-- Python runtime errors that the converter code can actually raise:
IndexError from `get_neighbors(...)[0]` on an empty result, AttributeError
from reading a missing attribute (e.g. `.uid` on a list, or
`.nominal_voltage` on an integer uid). -/
inductive PyExc where
  | indexError
  | attributeError
deriving DecidableEq

/-- Generic bus (`epowcore.gdf.bus.Bus`), with the attributes the converter
module reads.  The gdf data classes live outside the converter module; their
fields are modelled from the spec's data-model section. -/
structure Bus where
  uid : Nat
  name : String
  coords : List (ℚ × ℚ)
  nominal_voltage : ℚ
  bus_type : BusType
  lf_bus_type : LFBusType

/-- Generic load (`epowcore.gdf.load.Load`). -/
structure Load where
  uid : Nat
  name : String
  active_power : ℚ
  reactive_power : ℚ

/-- Generic two-winding transformer
(`epowcore.gdf.transformers.two_winding_transformer.TwoWindingTransformer`).
The `get_default` field models the component's access to the external
Default Policy Provider (`component.get_default(attr, platform)`). -/
structure TwoWindingTransformer where
  uid : Nat
  name : String
  rating : ℚ
  voltage_hv : ℚ
  voltage_lv : ℚ
  r1pu : ℚ
  pfe_kw : ℚ
  phase_shift_30 : ℚ
  tap_neutral : ℚ
  tap_max : ℚ
  tap_min : ℚ
  tap_changer_voltage : ℚ
  tap_initial : ℚ
  get_default : String → Platform → ℚ

/-- Nested tap-detail record of the three-winding transformer. -/
structure TransformerTapDetails where
  tap_changer_voltage : ℚ
  tap_initial : ℚ
  tap_neutral : ℚ
  tap_max : ℚ
  tap_min : ℚ

/-- Generic three-winding transformer
(`epowcore.gdf.transformers.three_winding_transformer.ThreeWindingTransformer`). -/
structure ThreeWindingTransformer where
  uid : Nat
  name : String
  voltage_hv : ℚ
  voltage_mv : ℚ
  voltage_lv : ℚ
  rating_hv : ℚ
  rating_mv : ℚ
  rating_lv : ℚ
  pfe_kw : ℚ
  phase_shift_30_mv : ℚ
  phase_shift_30_lv : ℚ
  TapDetails : TransformerTapDetails

/-- Generic synchronous machine
(`epowcore.gdf.generators.synchronous_machine.SynchronousMachine`). -/
structure SynchronousMachine where
  uid : Nat
  name : String
  active_power : ℚ
  voltage_set_point : ℚ
  rated_apparent_power : ℚ
  q_max : ℚ
  q_min : ℚ
  p_min : ℚ
  p_max : ℚ
  rated_voltage : ℚ
  subtransient_reactance_x : ℚ

/-- Generic transmission line (`epowcore.gdf.tline.TLine`).  Its electrical
attributes are reals because the derived capacitance involves pi.
`get_default`, `r0_fb` and `x0_fb` model the component's platform-specific
fallback functions. -/
structure TLine where
  uid : Nat
  name : String
  coords : List (ℚ × ℚ)
  length : ℝ
  r1 : ℝ
  x1 : ℝ
  b1 : ℝ
  parallel_lines : ℚ
  get_default : String → Platform → ℝ
  r0_fb : Platform → ℝ
  x0_fb : Platform → ℝ

/-- Generic ward equivalent (`epowcore.gdf.ward.Ward`). -/
structure Ward where
  uid : Nat
  name : String
  p_gen : ℚ
  q_gen : ℚ
  p_load : ℚ
  q_load : ℚ
  p_zload : ℚ
  q_zload : ℚ

/-- Generic shunt (`epowcore.gdf.shunt.Shunt`). -/
structure Shunt where
  uid : Nat
  name : String
  p : ℚ
  q : ℚ

/-- Generic switch (`epowcore.gdf.switch.Switch`). -/
structure Switch where
  uid : Nat
  name : String
  closed : Bool
  rating_b : ℚ

/-- Tagged union of the gdf component kinds the converter module imports
(`epowcore.gdf.component.Component` and its variants). -/
inductive Component where
  | bus (b : Bus)
  | load (l : Load)
  | twoWindingTransformer (t : TwoWindingTransformer)
  | threeWindingTransformer (t : ThreeWindingTransformer)
  | synchronousMachine (m : SynchronousMachine)
  | tline (t : TLine)
  | ward (w : Ward)
  | shunt (s : Shunt)
  | switch (s : Switch)

/-- Unique identifier of a component (`component.uid`). -/
def Component.uid : Component → Nat
  | .bus b => b.uid
  | .load l => l.uid
  | .twoWindingTransformer t => t.uid
  | .threeWindingTransformer t => t.uid
  | .synchronousMachine m => m.uid
  | .tline t => t.uid
  | .ward w => w.uid
  | .shunt s => s.uid
  | .switch s => s.uid

/-- Dynamically typed Python value as it flows through the converter code:
either a gdf component object or a bare integer uid.  The switch converter
passes uids where components are expected, and ward/shunt pass a component
object where other converters pass a uid, so both shapes occur as arguments. -/
inductive PyVal where
  | comp (c : Component)
  | intVal (n : Nat)

/-- Topology graph of the generic model.  The graph's single-bus
convenience lookup (`epowcore.gdf.utils.get_connected_bus`) is an external
capability (spec: depth-bounded breadth search, no connector filtering),
modelled as an abstract function from component and depth bound to an
optional bus. -/
structure Graph where
  connected_bus : Component → Nat → Option Bus

/-- Generic core model (`epowcore.gdf.core_model.CoreModel`): the graph, the
network base frequency, and the neighbor lookup capability
`get_neighbors(component, follow_links, connector)` returning an ordered
sequence of components (external Topology Resolver per the spec). -/
structure CoreModel where
  graph : Graph
  base_frequency : ℝ
  get_neighbors : Component → Bool → Option String → List Component

/-- Single-bus connected-bus lookup (`epowcore.gdf.utils.get_connected_bus`). -/
def get_connected_bus (graph : Graph) (component : Component) (max_depth : Nat) : Option Bus :=
  graph.connected_bus component max_depth

/-- Pandapower bus element: the keyword arguments of the
`pandapower.create_bus` call in `create_bus_from_gdf`. -/
structure PPBus where
  name : String
  index : Nat
  geodata : List (ℚ × ℚ)
  coords : List (ℚ × ℚ)
  vn_kv : ℚ
  type : String
  zone : Option String
  in_service : Bool
  max_vm_pu : PyFloat ℚ
  min_vm_pu : PyFloat ℚ

/-- Pandapower load element: the keyword arguments of the
`pandapower.create_load` call in `create_load_from_gdf`. -/
structure PPLoad where
  name : String
  index : Nat
  bus : PyVal
  p_mw : ℚ
  q_mvar : ℚ
  const_z_percent : ℚ
  const_i_percent : ℚ
  sn_mva : PyFloat ℚ
  scaling : ℚ
  in_service : Bool
  type : String
  max_p_mw : PyFloat ℚ
  min_p_mw : PyFloat ℚ
  max_q_mvar : PyFloat ℚ
  min_q_mvar : PyFloat ℚ
  controllable : PyFloat ℚ

/-- Pandapower two-winding transformer element: the keyword arguments of the
`pandapower.create_transformer_from_parameters` call in
`create_two_winding_transformer_from_gdf`. -/
structure PPTrafo where
  name : String
  index : Nat
  hv_bus : Nat
  lv_bus : Nat
  sn_mva : ℚ
  vn_hv_kv : ℚ
  vn_lv_kv : ℚ
  vkr_percent : ℚ
  vk_percent : ℚ
  pfe_kw : ℚ
  i0_percent : ℚ
  shift_degree : ℚ
  tap_side : String
  tap_neutral : ℚ
  tap_max : ℚ
  tap_min : ℚ
  tap_step_percent : ℚ
  tap_step_degree : PyFloat ℚ
  tap_pos : ℚ
  tap_phase_shifter : Bool
  tap_set_vm_pu : ℚ
  in_service : Bool
  vector_group : Option String
  max_loading_percent : PyFloat ℚ
  parallel : ℚ
  df : ℚ
  vk0_percent : PyFloat ℚ
  vkr0_percent : PyFloat ℚ
  mag0_percent : ℚ
  mag0_rx : ℚ
  si0_hv_partial : ℚ
  pt_percent : PyFloat ℚ
  oltc : PyFloat ℚ
  tap_dependent_impedance : PyFloat ℚ
  vk_percent_characteristic : Option String
  vkr_percent_characteristic : Option String
  xn_ohm : PyFloat ℚ
  tap2_side : Option String
  tap2_neutral : PyFloat ℚ
  tap2_max : PyFloat ℚ
  tap2_min : PyFloat ℚ
  tap2_step_percent : PyFloat ℚ
  tap2_step_degree : PyFloat ℚ
  tap2_pos : PyFloat ℚ
  tap2_phase_shifter : PyFloat ℚ

/-- Pandapower generator element: the keyword arguments of the
`pandapower.create_gen` call in
`create_generator_from_gdf_synchronous_maschine`. -/
structure PPGen where
  name : String
  index : Nat
  bus : PyVal
  p_mw : ℚ
  vm_pu : ℚ
  sn_mva : ℚ
  max_q_mvar : ℚ
  min_q_mvar : ℚ
  min_p_mw : ℚ
  max_p_mw : ℚ
  min_vm_pu : PyFloat ℚ
  max_vm_pu : PyFloat ℚ
  scaling : ℚ
  type : String
  slack : Bool
  controllable : Bool
  vn_kv : ℚ
  xdss_pu : ℚ
  rdss_ohm : PyFloat ℚ
  cos_phi : PyFloat ℚ
  pg_percent : PyFloat ℚ
  power_station_trafo : PyFloat ℚ
  in_service : Bool
  slack_weight : ℚ

/-- Pandapower line element: the keyword arguments of the
`pandapower.create_line_from_parameters` call in `create_line_from_gdf_tline`. -/
structure PPLine where
  name : String
  index : Nat
  geodata : List (ℚ × ℚ)
  from_bus : Nat
  to_bus : Nat
  length_km : ℝ
  r_ohm_per_km : ℝ
  x_ohm_per_km : ℝ
  c_nf_per_km : ℝ
  max_i_ka : ℝ
  type : Option String
  in_service : Bool
  df : ℝ
  parallel : ℚ
  g_us_per_km : ℝ
  max_loading_percent : PyFloat ℝ
  alpha : ℝ
  temperature_degree_celsius : ℝ
  r0_ohm_per_km : ℝ
  x0_ohm_per_km : ℝ
  c0_nf_per_km : PyFloat ℝ
  g0_us_per_km : ℝ
  endtemp_degree : PyFloat ℝ

/-- Pandapower ward element: the keyword arguments of the
`pandapower.create_ward` call in `create_ward_from_gdf_ward`. -/
structure PPWard where
  name : String
  index : Nat
  bus : PyVal
  ps_mw : ℚ
  qs_mvar : ℚ
  pz_mw : ℚ
  qz_mvar : ℚ
  in_service : Bool

/-- Pandapower shunt element: the keyword arguments of the
`pandapower.create_shunt` call in `create_shunt_from_gdf_shunt`. -/
structure PPShunt where
  index : Nat
  bus : PyVal
  p_mw : ℚ
  q_mvar : ℚ

/-- One element of the pandapower network, tagged by its element table. -/
inductive PPElement where
  | bus (e : PPBus)
  | load (e : PPLoad)
  | trafo (e : PPTrafo)
  | gen (e : PPGen)
  | line (e : PPLine)
  | ward (e : PPWard)
  | shunt (e : PPShunt)

/-- Pandapower network (`pandapower.pandapowerNet`), abstracted to the list
of elements created in it, in creation order. -/
abbrev pandapowerNet := List PPElement

/-- Each `pandapower.create_*` entry point appends exactly one element
record to the network; the target library's internal storage is out of
scope, only the created element and its parameters matter. -/
def pandapower.create_bus (net : pandapowerNet) (e : PPBus) : pandapowerNet :=
  net ++ [PPElement.bus e]

/-- Appends one load element (`pandapower.create_load`). -/
def pandapower.create_load (net : pandapowerNet) (e : PPLoad) : pandapowerNet :=
  net ++ [PPElement.load e]

/-- Appends one two-winding transformer element
(`pandapower.create_transformer_from_parameters`). -/
def pandapower.create_transformer_from_parameters (net : pandapowerNet) (e : PPTrafo) :
    pandapowerNet :=
  net ++ [PPElement.trafo e]

/-- Appends one generator element (`pandapower.create_gen`). -/
def pandapower.create_gen (net : pandapowerNet) (e : PPGen) : pandapowerNet :=
  net ++ [PPElement.gen e]

/-- Appends one line element (`pandapower.create_line_from_parameters`). -/
def pandapower.create_line_from_parameters (net : pandapowerNet) (e : PPLine) : pandapowerNet :=
  net ++ [PPElement.line e]

/-- Appends one ward element (`pandapower.create_ward`). -/
def pandapower.create_ward (net : pandapowerNet) (e : PPWard) : pandapowerNet :=
  net ++ [PPElement.ward e]

/-- Appends one shunt element (`pandapower.create_shunt`). -/
def pandapower.create_shunt (net : pandapowerNet) (e : PPShunt) : pandapowerNet :=
  net ++ [PPElement.shunt e]

/-- The conversion session (`PandapowerModel` dataclass): the accumulating
pandapower network and the selected target platform. -/
structure PandapowerModel where
  network : pandapowerNet
  platform : Platform

/-- Converter `PandapowerModel.create_bus_from_gdf`.  Faithful to the
source, the branch condition reads `Bus.bus_type`, the *class* attribute of
the `Bus` dataclass, not `bus.bus_type` of the instance; the class
attribute's value is declared outside this module and is therefore passed in
as the parameter `busClassBusType` (modelled from the spec only to the
extent that reading it yields some fixed `BusType` value).  The Python
function returns `None`; its only effect is to create one pandapower bus. -/
def PandapowerModel.create_bus_from_gdf (self : PandapowerModel) (busClassBusType : BusType)
    (bus : Bus) : PandapowerModel :=
  let pandapower_type := if busClassBusType = BusType.JUNCTION then "n" else "b"
  { self with
    network := pandapower.create_bus self.network
      { name := bus.name
        index := bus.uid
        geodata := bus.coords
        coords := bus.coords
        vn_kv := bus.nominal_voltage
        type := pandapower_type
        zone := none
        in_service := true
        max_vm_pu := PyFloat.nan
        min_vm_pu := PyFloat.nan } }

/-- Converter `PandapowerModel.create_load_from_gdf`: resolves the connected
bus with `get_connected_bus(graph, load, max_depth=1)`; returns `False` with
the network untouched when no bus is found, otherwise creates one load
(referencing the bus by `load_bus.uid`) and returns `True`. -/
def PandapowerModel.create_load_from_gdf (self : PandapowerModel) (core_model : CoreModel)
    (load : Load) : Bool × PandapowerModel :=
  match get_connected_bus core_model.graph (Component.load load) 1 with
  | none => (false, self)
  | some load_bus =>
    (true,
      { self with
        network := pandapower.create_load self.network
          { name := load.name
            index := load.uid
            bus := PyVal.intVal load_bus.uid
            p_mw := load.active_power
            q_mvar := load.reactive_power
            const_z_percent := 0
            const_i_percent := 0
            sn_mva := PyFloat.nan
            scaling := 1
            in_service := true
            type := "wye"
            max_p_mw := PyFloat.nan
            min_p_mw := PyFloat.nan
            max_q_mvar := PyFloat.nan
            min_q_mvar := PyFloat.nan
            controllable := PyFloat.nan } })

/-- Converter `PandapowerModel.create_two_winding_transformer_from_gdf`.
The source indexes `get_neighbors(...)[0]` for the HV and LV sides, so an
empty lookup result raises IndexError (the subsequent `is None` check can
never fire: `get_neighbors` returns a sequence of components, never `None`).
With both sides resolved it derives `vk_percent` from `r1pu` when that is
nonzero, else from the Default Policy Provider, creates one transformer
element and returns `True`. -/
def PandapowerModel.create_two_winding_transformer_from_gdf (self : PandapowerModel)
    (core_model : CoreModel) (transformer : TwoWindingTransformer) :
    Except PyExc (Bool × PandapowerModel) :=
  match core_model.get_neighbors (Component.twoWindingTransformer transformer) true
      (some ("HV")) with
  | [] => Except.error PyExc.indexError
  | high_voltage_bus :: _ =>
    match core_model.get_neighbors (Component.twoWindingTransformer transformer) true
        (some ("LV")) with
    | [] => Except.error PyExc.indexError
    | low_voltage_bus :: _ =>
      let vk_percent : ℚ :=
        if transformer.r1pu ≠ 0 then
          transformer.r1pu * (transformer.voltage_hv / transformer.voltage_lv) * 100
        else
          transformer.get_default ("vk_percent") self.platform
      Except.ok (true,
        { self with
          network := pandapower.create_transformer_from_parameters self.network
            { name := transformer.name
              index := transformer.uid
              hv_bus := high_voltage_bus.uid
              lv_bus := low_voltage_bus.uid
              sn_mva := transformer.rating
              vn_hv_kv := transformer.voltage_hv
              vn_lv_kv := transformer.voltage_lv
              vkr_percent := 0
              vk_percent := vk_percent
              pfe_kw := transformer.pfe_kw
              i0_percent := 0
              shift_degree := transformer.phase_shift_30 * 30
              tap_side := "hv"
              tap_neutral := transformer.tap_neutral
              tap_max := transformer.tap_max
              tap_min := transformer.tap_min
              tap_step_percent := transformer.tap_changer_voltage * 100
              tap_step_degree := PyFloat.nan
              tap_pos := transformer.tap_initial
              tap_phase_shifter := false
              tap_set_vm_pu := transformer.get_default ("tap_set_vm_pu") self.platform
              in_service := true
              vector_group := none
              max_loading_percent := PyFloat.nan
              parallel := 1
              df := 1
              vk0_percent := PyFloat.nan
              vkr0_percent := PyFloat.nan
              mag0_percent := transformer.get_default ("mag0_percent") self.platform
              mag0_rx := transformer.get_default ("mag0_rx") self.platform
              si0_hv_partial := transformer.get_default ("si0_hv_partial") self.platform
              pt_percent := PyFloat.nan
              oltc := PyFloat.nan
              tap_dependent_impedance := PyFloat.nan
              vk_percent_characteristic := none
              vkr_percent_characteristic := none
              xn_ohm := PyFloat.nan
              tap2_side := none
              tap2_neutral := PyFloat.nan
              tap2_max := PyFloat.nan
              tap2_min := PyFloat.nan
              tap2_step_percent := PyFloat.nan
              tap2_step_degree := PyFloat.nan
              tap2_pos := PyFloat.nan
              tap2_phase_shifter := PyFloat.nan } })

/-- Converter `PandapowerModel.create_three_winding_transformer_from_gdf`.
Faithful to the source: the HV and LV lookups are indexed with `[0]` (empty
result: IndexError), the MV lookup is *not* indexed and stays a list, the
`is None` check can never fire, and the creation call then evaluates
`mv_bus=middle_voltage_bus.uid`, reading attribute `uid` on a list, which
raises AttributeError, so the creation call is never executed. -/
def PandapowerModel.create_three_winding_transformer_from_gdf (self : PandapowerModel)
    (core_model : CoreModel) (transformer3w : ThreeWindingTransformer) :
    Except PyExc (Bool × PandapowerModel) :=
  match core_model.get_neighbors (Component.threeWindingTransformer transformer3w) true
      (some ("HV")) with
  | [] => Except.error PyExc.indexError
  | _high_voltage_bus :: _ =>
    let _middle_voltage_bus :=
      core_model.get_neighbors (Component.threeWindingTransformer transformer3w) true
        (some ("MV"))
    match core_model.get_neighbors (Component.threeWindingTransformer transformer3w) true
        (some ("LV")) with
    | [] => Except.error PyExc.indexError
    | _low_voltage_bus :: _ =>
      Except.error PyExc.attributeError

/-- Converter `PandapowerModel.create_generator_from_gdf_synchronous_maschine`:
resolves the connected bus (depth 1); returns `False` untouched when no bus
is found; otherwise flags the generator as slack when the bus's load-flow
type is `SLACK`, creates one generator element (referencing the bus by uid)
and returns `True`. -/
def PandapowerModel.create_generator_from_gdf_synchronous_maschine (self : PandapowerModel)
    (core_model : CoreModel) (synchronous_maschine : SynchronousMachine) :
    Bool × PandapowerModel :=
  match get_connected_bus core_model.graph (Component.synchronousMachine synchronous_maschine)
      1 with
  | none => (false, self)
  | some synchronous_maschine_bus =>
    let slack : Bool :=
      if synchronous_maschine_bus.lf_bus_type = LFBusType.SLACK then true else false
    (true,
      { self with
        network := pandapower.create_gen self.network
          { name := synchronous_maschine.name
            index := synchronous_maschine.uid
            bus := PyVal.intVal synchronous_maschine_bus.uid
            p_mw := synchronous_maschine.active_power
            vm_pu := synchronous_maschine.voltage_set_point
            sn_mva := synchronous_maschine.rated_apparent_power
            max_q_mvar := synchronous_maschine.q_max
            min_q_mvar := synchronous_maschine.q_min
            min_p_mw := synchronous_maschine.p_min
            max_p_mw := synchronous_maschine.p_max
            min_vm_pu := PyFloat.nan
            max_vm_pu := PyFloat.nan
            scaling := 1
            type := "sync"
            slack := slack
            controllable := false
            vn_kv := synchronous_maschine.rated_voltage
            xdss_pu := synchronous_maschine.subtransient_reactance_x
            rdss_ohm := PyFloat.nan
            cos_phi := PyFloat.nan
            pg_percent := PyFloat.nan
            power_station_trafo := PyFloat.nan
            in_service := true
            slack_weight := 0 } })

/-- Converter `PandapowerModel.create_line_from_gdf_tline`.  Endpoint
lookups on connectors "A" and "B" are indexed with `[0]` (empty result:
IndexError; the `is None` check never fires).  With both endpoints resolved
it creates one line element, deriving the capacitance per km from the
per-unit susceptance as `(b1 * 1e3) / (2 * pi * base_frequency)`, and
returns `True`. -/
noncomputable def PandapowerModel.create_line_from_gdf_tline (self : PandapowerModel)
    (core_model : CoreModel) (tline : TLine) : Except PyExc (Bool × PandapowerModel) :=
  match core_model.get_neighbors (Component.tline tline) true (some ("A")) with
  | [] => Except.error PyExc.indexError
  | from_bus :: _ =>
    match core_model.get_neighbors (Component.tline tline) true (some ("B")) with
    | [] => Except.error PyExc.indexError
    | to_bus :: _ =>
      let network_frequency := core_model.base_frequency
      Except.ok (true,
        { self with
          network := pandapower.create_line_from_parameters self.network
            { name := tline.name
              index := tline.uid
              geodata := tline.coords
              from_bus := from_bus.uid
              to_bus := to_bus.uid
              length_km := tline.length
              r_ohm_per_km := tline.r1
              x_ohm_per_km := tline.x1
              c_nf_per_km := (tline.b1 * 1e3) / (2 * Real.pi * network_frequency)
              max_i_ka := 0.5
              type := none
              in_service := true
              df := 1
              parallel := tline.parallel_lines
              g_us_per_km := 0
              max_loading_percent := PyFloat.nan
              alpha := tline.get_default ("alpha") self.platform
              temperature_degree_celsius :=
                tline.get_default ("temperature_degree_celsius") self.platform
              r0_ohm_per_km := tline.r0_fb self.platform
              x0_ohm_per_km := tline.x0_fb self.platform
              c0_nf_per_km := PyFloat.nan
              g0_us_per_km := 0
              endtemp_degree := PyFloat.nan } })

/-- Converter `PandapowerModel.create_ward_from_gdf_ward`: resolves the
connected bus (depth 1); returns `False` untouched when no bus is found;
otherwise creates one ward element — passing the resolved bus *object* (not
its uid) as the `bus` argument, computing the constant-power set-points as
`-p_gen + p_load` and `-q_gen + q_load`, copying the constant-impedance
components — and returns `True`. -/
def PandapowerModel.create_ward_from_gdf_ward (self : PandapowerModel) (core_model : CoreModel)
    (ward : Ward) : Bool × PandapowerModel :=
  match get_connected_bus core_model.graph (Component.ward ward) 1 with
  | none => (false, self)
  | some ward_bus =>
    (true,
      { self with
        network := pandapower.create_ward self.network
          { name := ward.name
            index := ward.uid
            bus := PyVal.comp (Component.bus ward_bus)
            ps_mw := -ward.p_gen + ward.p_load
            qs_mvar := -ward.q_gen + ward.q_load
            pz_mw := ward.p_zload
            qz_mvar := ward.q_zload
            in_service := true } })

/-- Converter `PandapowerModel.create_shunt_from_gdf_shunt`: resolves the
connected bus (depth 1); returns `False` untouched when no bus is found;
otherwise creates one shunt element (passing the resolved bus object, like
the ward converter) and returns `True`. -/
def PandapowerModel.create_shunt_from_gdf_shunt (self : PandapowerModel)
    (core_model : CoreModel) (shunt : Shunt) : Bool × PandapowerModel :=
  match get_connected_bus core_model.graph (Component.shunt shunt) 1 with
  | none => (false, self)
  | some shunt_bus =>
    (true,
      { self with
        network := pandapower.create_shunt self.network
          { index := shunt.uid
            bus := PyVal.comp (Component.bus shunt_bus)
            p_mw := shunt.p
            q_mvar := shunt.q } })

/-- Helper `PandapowerModel._create_pandapower_switch_et`: maps the type of
the given value to the pandapower switch element-type code with an
isinstance-based match over the gdf component classes; any value that is not
one of the four recognized component kinds (in particular a bare integer
uid) falls through to `False`, modelled as `none`. -/
def PandapowerModel._create_pandapower_switch_et (component : PyVal) : Option String :=
  match component with
  | PyVal.comp (Component.bus _) => some ("b")
  | PyVal.comp (Component.tline _) => some ("I")
  | PyVal.comp (Component.twoWindingTransformer _) => some ("t")
  | PyVal.comp (Component.threeWindingTransformer _) => some ("t3")
  | _ => none

/-- Converter `PandapowerModel.create_switch_from_gdf_switch`.  Faithful to
the source: with exactly two neighbors it stores the *uids* of the bus side
and of the other side, then passes the other side's uid (an integer, not the
component) to `_create_pandapower_switch_et`; when classification fails it
returns `False`.  In the (dead) success branch the source would evaluate
`switch_bus.nominal_voltage` on the integer uid, raising AttributeError.
Any neighbor count other than two returns `False` untouched. -/
def PandapowerModel.create_switch_from_gdf_switch (self : PandapowerModel)
    (core_model : CoreModel) (switch : Switch) : Except PyExc (Bool × PandapowerModel) :=
  match core_model.get_neighbors (Component.switch switch) true none with
  | [n0, n1] =>
    let pair : Nat × Nat :=
      match n0 with
      | Component.bus _ => (n0.uid, n1.uid)
      | _ => (n1.uid, n0.uid)
    let switch_bus := pair.1
    let switch_other_component := pair.2
    match PandapowerModel._create_pandapower_switch_et (PyVal.intVal switch_other_component) with
    | none => Except.ok (false, self)
    | some _switch_et =>
      let _ := switch_bus
      Except.error PyExc.attributeError
  | _ => Except.ok (false, self)

/-! Concrete instances used by witnesses and counterexamples. -/

/-- Platform used by the example conversion sessions. -/
def platform0 : Platform := ⟨0⟩

/-- Fresh conversion session with an empty network. -/
def m0 : PandapowerModel := { network := [], platform := platform0 }

/-- Graph in which no component has a connected bus. -/
def graphNone : Graph := { connected_bus := fun _ _ => none }

/-- Example busbar-type bus. -/
def bus1 : Bus :=
  { uid := 1, name := "bus1", coords := [], nominal_voltage := 110,
    bus_type := BusType.BUSBAR, lf_bus_type := LFBusType.PQ }

/-- Example bus whose bus_type is junction-node. -/
def busJunction : Bus :=
  { uid := 1, name := "junction bus", coords := [], nominal_voltage := 110,
    bus_type := BusType.JUNCTION, lf_bus_type := LFBusType.PQ }

/-- Example bus whose bus_type is busbar. -/
def busBusbar : Bus :=
  { uid := 2, name := "busbar bus", coords := [], nominal_voltage := 110,
    bus_type := BusType.BUSBAR, lf_bus_type := LFBusType.PQ }

/-- Example load. -/
def load1 : Load := { uid := 3, name := "load1", active_power := 5, reactive_power := 1 }

/-- Example synchronous machine. -/
def machine1 : SynchronousMachine :=
  { uid := 4, name := "machine1", active_power := 10, voltage_set_point := 1,
    rated_apparent_power := 20, q_max := 5, q_min := -5, p_min := 0, p_max := 15,
    rated_voltage := 110, subtransient_reactance_x := 2 }

/-- Example ward generating 1 MW and consuming nothing. -/
def ward0 : Ward :=
  { uid := 7, name := "ward0", p_gen := 1, q_gen := 0, p_load := 0, q_load := 0,
    p_zload := 2, q_zload := 3 }

/-- Example shunt. -/
def shunt1 : Shunt := { uid := 8, name := "shunt1", p := 1, q := 2 }

/-- Example switch. -/
def switch1 : Switch := { uid := 9, name := "switch1", closed := true, rating_b := 10 }

/-- Example two-winding transformer with the attribute values of the spec's
test vector: nonzero per-unit resistance 0.01, 110 kV / 20 kV. -/
def t5 : TwoWindingTransformer :=
  { uid := 10, name := "trafo1", rating := 40, voltage_hv := 110, voltage_lv := 20,
    r1pu := 0.01, pfe_kw := 0, phase_shift_30 := 0, tap_neutral := 0, tap_max := 2,
    tap_min := -2, tap_changer_voltage := 0, tap_initial := 0, get_default := fun _ _ => 0 }

/-- Example three-winding transformer. -/
def trafo3w1 : ThreeWindingTransformer :=
  { uid := 11, name := "trafo3w1", voltage_hv := 220, voltage_mv := 110, voltage_lv := 20,
    rating_hv := 100, rating_mv := 60, rating_lv := 40, pfe_kw := 0,
    phase_shift_30_mv := 0, phase_shift_30_lv := 0,
    TapDetails :=
      { tap_changer_voltage := 0, tap_initial := 0, tap_neutral := 0, tap_max := 2,
        tap_min := -2 } }

/-- Example transmission line with the spec's test vector b1 = 1e-4. -/
noncomputable def tline6 : TLine :=
  { uid := 12, name := "line1", coords := [], length := 1, r1 := 0, x1 := 0, b1 := 1e-4,
    parallel_lines := 1, get_default := fun _ _ => 0, r0_fb := fun _ => 0,
    x0_fb := fun _ => 0 }

/-- Core model in which every topology lookup comes back empty. -/
def cmEmpty : CoreModel :=
  { graph := graphNone, base_frequency := 50, get_neighbors := fun _ _ _ => [] }

/-- Core model in which every component has bus1 as its connected bus. -/
def cmSome : CoreModel :=
  { graph := { connected_bus := fun _ _ => some bus1 }, base_frequency := 50,
    get_neighbors := fun _ _ _ => [] }

/-- Core model in which every neighbor lookup yields exactly [bus1],
with base frequency 50. -/
def cm5 : CoreModel :=
  { graph := graphNone, base_frequency := 50, get_neighbors := fun _ _ _ => [Component.bus bus1] }

/-- Core model in which every neighbor lookup yields [bus1, tline6]. -/
noncomputable def cmBusTline : CoreModel :=
  { graph := graphNone, base_frequency := 50,
    get_neighbors := fun _ _ _ => [Component.bus bus1, Component.tline tline6] }

/-- Core model in which every neighbor lookup yields three components. -/
def cm3 : CoreModel :=
  { graph := graphNone, base_frequency := 50,
    get_neighbors := fun _ _ _ =>
      [Component.bus bus1, Component.bus bus1, Component.bus bus1] }

/-- Core model in which the MV-connector lookup is empty while every other
lookup yields [bus1]. -/
def cmNoMV : CoreModel :=
  { graph := graphNone, base_frequency := 50,
    get_neighbors := fun _ _ conn =>
      if conn = some ("MV") then [] else [Component.bus bus1] }

/-- Element-type marker of the single bus created by `create_bus_from_gdf`
on a fresh session, as a function of the `Bus` class attribute value and the
input bus. -/
def createdBusMarker (busClassBusType : BusType) (bus : Bus) : Option String :=
  match (PandapowerModel.create_bus_from_gdf m0 busClassBusType bus).network.getLast? with
  | some (PPElement.bus e) => some e.type
  | _ => none

/-! Claim theorems. -/

/-- C1 (falsified, code bug): on a switch whose unfiltered neighbor lookup
returns exactly [Bus, TLine], the converter does *not* succeed — it passes
the other neighbor's integer uid (instead of the component) to the
element-type classifier, which therefore matches no component class, and the
converter returns the failure indicator with the network unchanged.  Had the
component itself been passed, the classifier would yield the line code. -/
theorem c1_switch_bus_tline_conversion_fails :
    PandapowerModel.create_switch_from_gdf_switch m0 cmBusTline switch1 =
      Except.ok (false, m0) ∧
    PandapowerModel._create_pandapower_switch_et (PyVal.intVal (TLine.uid tline6)) = none ∧
    PandapowerModel._create_pandapower_switch_et (PyVal.comp (Component.tline tline6)) =
      some ("I") :=
  ⟨rfl, rfl, rfl⟩

/-- C2 (falsified, code bug): the bus converter's type marker is computed
from the `Bus` *class* attribute, a constant, so the junction-node bus and
the busbar bus receive the same marker whatever that constant is; in
particular it is impossible that the junction bus gets the "n" marker while
the busbar bus gets the "b" marker, as the claim requires. -/
theorem c2_bus_marker_ignores_bus_type (busClassBusType : BusType) :
    createdBusMarker busClassBusType busJunction = createdBusMarker busClassBusType busBusbar ∧
    ¬ (createdBusMarker busClassBusType busJunction = some ("n") ∧
       createdBusMarker busClassBusType busBusbar = some ("b")) := by
  cases busClassBusType <;> exact ⟨rfl, by decide⟩

/-- C3 counterexample: for a ward with p_gen = 1 and p_load = 0 whose
connected bus resolves, the created ward element's active set-point is -1,
not p_gen - p_load = 1, refuting the claim as stated. -/
theorem c3_ward_sign_counterexample :
    ∃ e : PPWard,
      PandapowerModel.create_ward_from_gdf_ward m0 cmSome ward0 =
        (true, { m0 with network := [PPElement.ward e] }) ∧
      e.ps_mw = -1 ∧ ¬ (e.ps_mw = ward0.p_gen - ward0.p_load) := by
  refine ⟨_, rfl, ?_, ?_⟩ <;> norm_num [ward0]

/-- C3 (amended): for every Ward input whose connected bus resolves, the
created ward element's constant-power set-points equal consumed minus
generated power on each axis (`-p_gen + p_load` and `-q_gen + q_load`),
while the constant-impedance components p_zload and q_zload are copied
unchanged. -/
theorem c3_ward_net_injection (cm : CoreModel) (m : PandapowerModel) (ward : Ward) (b : Bus)
    (h : get_connected_bus cm.graph (Component.ward ward) 1 = some b) :
    ∃ e : PPWard,
      PandapowerModel.create_ward_from_gdf_ward m cm ward =
        (true, { m with network := m.network ++ [PPElement.ward e] }) ∧
      e.ps_mw = -ward.p_gen + ward.p_load ∧ e.qs_mvar = -ward.q_gen + ward.q_load ∧
      e.pz_mw = ward.p_zload ∧ e.qz_mvar = ward.q_zload := by
  simp only [PandapowerModel.create_ward_from_gdf_ward, h, pandapower.create_ward]
  exact ⟨_, rfl, rfl, rfl, rfl, rfl⟩

/-- C3 witness: the amended statement evaluated on the concrete ward with
p_gen = 1, p_load = 0: the created element's active set-point is -1. -/
theorem c3_ward_net_injection_witness :
    ∃ e : PPWard,
      PandapowerModel.create_ward_from_gdf_ward m0 cmSome ward0 =
        (true, { m0 with network := [PPElement.ward e] }) ∧
      e.ps_mw = -1 := by
  obtain ⟨e, he, hp, _, _, _⟩ := c3_ward_net_injection cmSome m0 ward0 bus1 rfl
  exact ⟨e, by simpa [m0] using he, by rw [hp]; norm_num [ward0]⟩

/-- C4 (falsified, code bug): when the connector-filtered HV (or LV) lookup
of a two- or three-winding transformer resolves to no bus, the converter
does not return a failure indicator — indexing the empty lookup result with
[0] raises IndexError; and when the HV/LV sides resolve but the MV lookup is
left un-indexed, reading `.uid` on the returned list raises AttributeError.
Either way the converter terminates abnormally. -/
theorem c4_unresolved_bus_raises_exception :
    PandapowerModel.create_two_winding_transformer_from_gdf m0 cmEmpty t5 =
      Except.error PyExc.indexError ∧
    PandapowerModel.create_three_winding_transformer_from_gdf m0 cmEmpty trafo3w1 =
      Except.error PyExc.indexError ∧
    PandapowerModel.create_three_winding_transformer_from_gdf m0 cmNoMV trafo3w1 =
      Except.error PyExc.attributeError :=
  ⟨rfl, rfl, rfl⟩

/-- C5: for every two-winding transformer whose HV and LV lookups resolve,
conversion succeeds, creating exactly one transformer element whose
short-circuit voltage percentage equals r1pu * (voltage_hv / voltage_lv) *
100 when r1pu is nonzero, and the Default Policy Provider's vk_percent value
for the session's platform when r1pu is zero. -/
theorem c5_vk_percent_derivation (cm : CoreModel) (m : PandapowerModel)
    (t : TwoWindingTransformer) (bh : Component) (hs : List Component) (bl : Component)
    (ls : List Component)
    (hhv : cm.get_neighbors (Component.twoWindingTransformer t) true (some ("HV")) = bh :: hs)
    (hlv : cm.get_neighbors (Component.twoWindingTransformer t) true (some ("LV")) = bl :: ls) :
    ∃ e : PPTrafo,
      PandapowerModel.create_two_winding_transformer_from_gdf m cm t =
        Except.ok (true, { m with network := m.network ++ [PPElement.trafo e] }) ∧
      (t.r1pu ≠ 0 → e.vk_percent = t.r1pu * (t.voltage_hv / t.voltage_lv) * 100) ∧
      (t.r1pu = 0 → e.vk_percent = t.get_default ("vk_percent") m.platform) := by
  simp only [PandapowerModel.create_two_winding_transformer_from_gdf, hhv, hlv,
    pandapower.create_transformer_from_parameters]
  exact ⟨_, rfl, fun h => if_pos h, fun h => if_neg fun hc => hc h⟩

/-- C5 witness: the transformer with r1pu = 0.01, voltage_hv = 110,
voltage_lv = 20 converts successfully and the created element's vk_percent
is 5.5. -/
theorem c5_vk_percent_derivation_witness :
    ∃ e : PPTrafo,
      PandapowerModel.create_two_winding_transformer_from_gdf m0 cm5 t5 =
        Except.ok (true, { m0 with network := [PPElement.trafo e] }) ∧
      e.vk_percent = 5.5 := by
  obtain ⟨e, he, h1, _⟩ :=
    c5_vk_percent_derivation cm5 m0 t5 (Component.bus bus1) [] (Component.bus bus1) [] rfl rfl
  refine ⟨e, by simpa [m0] using he, ?_⟩
  rw [h1 (by norm_num [t5])]
  norm_num [t5]

/-- C6: for every transmission line whose endpoint lookups on connectors "A"
and "B" resolve and whose network base frequency is nonzero, conversion
succeeds, creating exactly one line element whose capacitance per kilometer
equals (b1 * 1e3) / (2 * pi * base_frequency). -/
theorem c6_line_capacitance_formula (cm : CoreModel) (m : PandapowerModel) (tline : TLine)
    (a : Component) (ra : List Component) (b : Component) (rb : List Component)
    (ha : cm.get_neighbors (Component.tline tline) true (some ("A")) = a :: ra)
    (hb : cm.get_neighbors (Component.tline tline) true (some ("B")) = b :: rb)
    (hf : cm.base_frequency ≠ 0) :
    ∃ e : PPLine,
      PandapowerModel.create_line_from_gdf_tline m cm tline =
        Except.ok (true, { m with network := m.network ++ [PPElement.line e] }) ∧
      e.c_nf_per_km = (tline.b1 * 1e3) / (2 * Real.pi * cm.base_frequency) := by
  simp only [PandapowerModel.create_line_from_gdf_tline, ha, hb,
    pandapower.create_line_from_parameters]
  exact ⟨_, rfl, rfl⟩

/-- C6 witness: the line with b1 = 1e-4 on a 50 Hz network converts
successfully and the created element's capacitance per km equals
(1e-4 * 1e3) / (2 * pi * 50). -/
theorem c6_line_capacitance_formula_witness :
    cm5.base_frequency ≠ 0 ∧
    ∃ e : PPLine,
      PandapowerModel.create_line_from_gdf_tline m0 cm5 tline6 =
        Except.ok (true, { m0 with network := [PPElement.line e] }) ∧
      e.c_nf_per_km = ((1e-4 : ℝ) * 1e3) / (2 * Real.pi * 50) := by
  have hf : cm5.base_frequency ≠ 0 := by norm_num [cm5]
  obtain ⟨e, he, hc⟩ :=
    c6_line_capacitance_formula cm5 m0 tline6 (Component.bus bus1) [] (Component.bus bus1) []
      rfl rfl hf
  exact ⟨hf, e, by simpa [m0] using he, by simpa [tline6, cm5] using hc⟩

/-- C7: for every Load, SynchronousMachine, Ward or Shunt input whose
single-bus connected-bus lookup at depth 1 resolves to nothing, the
corresponding converter returns the failure indicator and the conversion
session — including its element list — is returned unchanged. -/
theorem c7_no_connected_bus_unchanged (cm : CoreModel) (m : PandapowerModel) (load : Load)
    (machine : SynchronousMachine) (ward : Ward) (shunt : Shunt)
    (hld : get_connected_bus cm.graph (Component.load load) 1 = none)
    (hmc : get_connected_bus cm.graph (Component.synchronousMachine machine) 1 = none)
    (hwd : get_connected_bus cm.graph (Component.ward ward) 1 = none)
    (hsh : get_connected_bus cm.graph (Component.shunt shunt) 1 = none) :
    PandapowerModel.create_load_from_gdf m cm load = (false, m) ∧
    PandapowerModel.create_generator_from_gdf_synchronous_maschine m cm machine = (false, m) ∧
    PandapowerModel.create_ward_from_gdf_ward m cm ward = (false, m) ∧
    PandapowerModel.create_shunt_from_gdf_shunt m cm shunt = (false, m) := by
  refine ⟨?_, ?_, ?_, ?_⟩
  · simp only [PandapowerModel.create_load_from_gdf, hld]
  · simp only [PandapowerModel.create_generator_from_gdf_synchronous_maschine, hmc]
  · simp only [PandapowerModel.create_ward_from_gdf_ward, hwd]
  · simp only [PandapowerModel.create_shunt_from_gdf_shunt, hsh]

/-- C7 witness: on a core model in which no component has a connected bus,
all four converters return the failure indicator with the session
unchanged. -/
theorem c7_no_connected_bus_unchanged_witness :
    PandapowerModel.create_load_from_gdf m0 cmEmpty load1 = (false, m0) ∧
    PandapowerModel.create_generator_from_gdf_synchronous_maschine m0 cmEmpty machine1 =
      (false, m0) ∧
    PandapowerModel.create_ward_from_gdf_ward m0 cmEmpty ward0 = (false, m0) ∧
    PandapowerModel.create_shunt_from_gdf_shunt m0 cmEmpty shunt1 = (false, m0) :=
  c7_no_connected_bus_unchanged cmEmpty m0 load1 machine1 ward0 shunt1 rfl rfl rfl rfl

/-- C8: for every switch whose unfiltered neighbor lookup returns a sequence
whose length is not two, the switch converter returns the failure indicator
with the session unchanged (the neighbor-type classification and element
creation are never reached). -/
theorem c8_switch_wrong_neighbor_count (cm : CoreModel) (m : PandapowerModel) (switch : Switch)
    (h : (cm.get_neighbors (Component.switch switch) true none).length ≠ 2) :
    PandapowerModel.create_switch_from_gdf_switch m cm switch = Except.ok (false, m) := by
  unfold PandapowerModel.create_switch_from_gdf_switch
  rcases hl : cm.get_neighbors (Component.switch switch) true none with
    _ | ⟨n0, _ | ⟨n1, _ | ⟨n2, rest⟩⟩⟩
  · rfl
  · rfl
  · rw [hl] at h; exact absurd rfl h
  · rfl

/-- C8 witness: with three neighbors the switch converter fails and leaves
the session unchanged. -/
theorem c8_switch_wrong_neighbor_count_witness :
    (cm3.get_neighbors (Component.switch switch1) true none).length ≠ 2 ∧
    PandapowerModel.create_switch_from_gdf_switch m0 cm3 switch1 = Except.ok (false, m0) :=
  ⟨by decide, c8_switch_wrong_neighbor_count cm3 m0 switch1 (by decide)⟩

/-- C9: for every Bus input (and whatever value the `Bus` class attribute
read yields), the bus converter runs to completion and appends exactly one
bus element, keyed by the input's uid, with the input's name and nominal
voltage copied and both voltage-magnitude limits set to the NaN sentinel. -/
theorem c9_bus_always_converts (m : PandapowerModel) (busClassBusType : BusType) (bus : Bus) :
    ∃ e : PPBus,
      PandapowerModel.create_bus_from_gdf m busClassBusType bus =
        { m with network := m.network ++ [PPElement.bus e] } ∧
      e.index = bus.uid ∧ e.name = bus.name ∧ e.vn_kv = bus.nominal_voltage ∧
      e.max_vm_pu = PyFloat.nan ∧ e.min_vm_pu = PyFloat.nan :=
  ⟨_, rfl, rfl, rfl, rfl, rfl, rfl⟩

/-- C10: when the connected bus resolves, the ward and shunt converters pass
the resolved Bus component object itself as the created element's bus
reference, while the load and synchronous-machine converters pass the
resolved bus's uid. -/
theorem c10_ward_shunt_pass_bus_object (cm : CoreModel) (m : PandapowerModel) (ward : Ward)
    (shunt : Shunt) (load : Load) (machine : SynchronousMachine) (bw bs bl bg : Bus)
    (hwd : get_connected_bus cm.graph (Component.ward ward) 1 = some bw)
    (hsh : get_connected_bus cm.graph (Component.shunt shunt) 1 = some bs)
    (hld : get_connected_bus cm.graph (Component.load load) 1 = some bl)
    (hmc : get_connected_bus cm.graph (Component.synchronousMachine machine) 1 = some bg) :
    (∃ e : PPWard,
        (PandapowerModel.create_ward_from_gdf_ward m cm ward).2.network =
          m.network ++ [PPElement.ward e] ∧ e.bus = PyVal.comp (Component.bus bw)) ∧
    (∃ e : PPShunt,
        (PandapowerModel.create_shunt_from_gdf_shunt m cm shunt).2.network =
          m.network ++ [PPElement.shunt e] ∧ e.bus = PyVal.comp (Component.bus bs)) ∧
    (∃ e : PPLoad,
        (PandapowerModel.create_load_from_gdf m cm load).2.network =
          m.network ++ [PPElement.load e] ∧ e.bus = PyVal.intVal bl.uid) ∧
    (∃ e : PPGen,
        (PandapowerModel.create_generator_from_gdf_synchronous_maschine m cm machine).2.network =
          m.network ++ [PPElement.gen e] ∧ e.bus = PyVal.intVal bg.uid) := by
  refine ⟨?_, ?_, ?_, ?_⟩
  · simp only [PandapowerModel.create_ward_from_gdf_ward, hwd, pandapower.create_ward]
    exact ⟨_, rfl, rfl⟩
  · simp only [PandapowerModel.create_shunt_from_gdf_shunt, hsh, pandapower.create_shunt]
    exact ⟨_, rfl, rfl⟩
  · simp only [PandapowerModel.create_load_from_gdf, hld, pandapower.create_load]
    exact ⟨_, rfl, rfl⟩
  · simp only [PandapowerModel.create_generator_from_gdf_synchronous_maschine, hmc,
      pandapower.create_gen]
    exact ⟨_, rfl, rfl⟩

/-- C10 witness: on the core model resolving every component to bus1, the
ward and shunt elements reference the bus object while the load and
generator elements reference uid 1. -/
theorem c10_ward_shunt_pass_bus_object_witness :
    (∃ e : PPWard,
        (PandapowerModel.create_ward_from_gdf_ward m0 cmSome ward0).2.network =
          [PPElement.ward e] ∧ e.bus = PyVal.comp (Component.bus bus1)) ∧
    (∃ e : PPLoad,
        (PandapowerModel.create_load_from_gdf m0 cmSome load1).2.network =
          [PPElement.load e] ∧ e.bus = PyVal.intVal (Bus.uid bus1)) := by
  obtain ⟨⟨ew, hw1, hw2⟩, _, ⟨el, hl1, hl2⟩, _⟩ :=
    c10_ward_shunt_pass_bus_object cmSome m0 ward0 shunt1 load1 machine1 bus1 bus1 bus1 bus1
      rfl rfl rfl rfl
  exact ⟨⟨ew, by simpa [m0] using hw1, hw2⟩, ⟨el, by simpa [m0] using hl1, hl2⟩⟩
